import Mathlib

/-!
Verification development for the FIRSTDAY freight-matching repository.

Each section shallowly embeds one part of the JavaScript source:
* `Pricing` embeds `src/server/routes/pricing.js` (POST /pricing/shipping-price).
* `ClientRoute` embeds the client-side distance fallback of
  `src/client/src/pages/CreateShipment.jsx`.
* `Validation` embeds the input checks of `src/server/routes/vehicles.js`
  (POST /vehicles) and `src/server/routes/routes.js` (POST /shipments).
* `Legs` embeds the route-leg creation and lifecycle endpoints of
  `src/server/routes/routeLegs.js`.
* `Optimizer` models the chain/VRP greedy fallback described by the spec;
  the optimizer service itself is not part of the available source.

JavaScript numbers are modelled as `ℚ` where the code only adds, multiplies
and compares, and as `ℝ` where it calls trigonometric functions.  `Math.round`
is `round` (both are floor of x + 1/2).  Fallible endpoints return `Except`.
-/

namespace Pricing

/-- Vehicle classes priced by the shipping-price endpoint
(`vehicleBaseRate` keys in pricing.js). -/
inductive VehicleType where
  | open_ | covered | refrigerated | container | tanker | flatbed
  deriving DecidableEq, Repr

/-- `vehicleBaseRate` table from pricing.js lines 133-140. -/
def vehicleBaseRate : VehicleType → ℚ
  | .open_ => 30
  | .covered => 35
  | .refrigerated => 50
  | .container => 45
  | .tanker => 55
  | .flatbed => 40

/-- `urgencyMultiplier[urgency] || 1` from pricing.js lines 116-120:
unknown urgency labels fall back to 1. -/
def urgencyMultiplier (u : String) : ℚ :=
  if u = "normal" then 1
  else if u = "express" then 13/10
  else if u = "overnight" then 3/2
  else 1

/-- `cargoMultiplier[cargo_type] || 1` from pricing.js lines 123-130:
unknown cargo labels fall back to 1. -/
def cargoMultiplier (c : String) : ℚ :=
  if c = "general" then 1
  else if c = "perishable" then 7/5
  else if c = "fragile" then 13/10
  else if c = "hazardous" then 8/5
  else if c = "livestock" then 3/2
  else if c = "heavy_machinery" then 6/5
  else 1

/-- `baseCost = distance_km * weight_tons * baseRatePerKmTon` (rate 8 INR). -/
def baseCost (d w : ℚ) : ℚ := d * w * 8

/-- The `subtotal` computed by POST /pricing/shipping-price
(pricing.js lines 142-150): base, vehicle, cargo adjustment, urgency
adjustment and optional empty-return cost. -/
def shippingSubtotal (d w : ℚ) (v : VehicleType) (cargo urgency : String)
    (return_empty : Bool) : ℚ :=
  let base := baseCost d w
  let vehicleCost := vehicleBaseRate v * d
  let cargoAdjustment := base * (cargoMultiplier cargo - 1)
  let urgencyAdjustment := base * (urgencyMultiplier urgency - 1)
  let returnCost := if return_empty then (base + vehicleCost) * (3/10) else 0
  base + vehicleCost + cargoAdjustment + urgencyAdjustment + returnCost

/-- The response body of POST /pricing/shipping-price that matters here:
the exact subtotal and the rounded recommended suggested price. -/
structure PriceQuote where
  subtotal : ℚ
  recommended : ℤ
  deriving DecidableEq, Repr

/-- POST /pricing/shipping-price (pricing.js lines 97-182).  The guard
`if (!distance_km || !vehicle_type || !weight_tons)` rejects a zero
distance or zero weight with a 400 error before any pricing happens.
`recommended = Math.round((subtotal*1.15 + subtotal*1.25)/2)`. -/
def shippingPrice (d w : ℚ) (v : VehicleType) (cargo urgency : String)
    (return_empty : Bool) : Except String PriceQuote :=
  if d = 0 ∨ w = 0 then
    .error "Distance, vehicle type, and weight are required"
  else
    let s := shippingSubtotal d w v cargo urgency return_empty
    .ok ⟨s, round ((s * (115/100) + s * (125/100)) / 2)⟩

/-- Urgency options offered by the Optimizer page urgency select
(src/unnamed/part_007 lines 392-403): numeric multipliers sent verbatim
to the external chain-optimization endpoint. -/
def optimizerUrgencyOptions : List (String × ℚ) :=
  [("Standard", 1), ("Priority", 3/2), ("Express", 2), ("Emergency", 3)]

end Pricing

namespace ClientRoute

open Real

/-- A map coordinate as handled by the client (`point.lat`, `point.lng`),
modelled over the reals since the code applies trigonometric functions. -/
structure GeoPoint where
  lat : ℝ
  lng : ℝ

/-- JavaScript `Math.atan2(y, x)`. -/
noncomputable def atan2 (y x : ℝ) : ℝ :=
  if 0 < x then arctan (y / x)
  else if x = 0 then
    (if 0 < y then π / 2 else if y < 0 then -(π / 2) else 0)
  else if 0 ≤ y then arctan (y / x) + π
  else arctan (y / x) - π

/-- The great-circle distance computed inside `calculateHaversineDistance`
(CreateShipment.jsx lines 152-161) before the road-tortuosity factor:
`R * c` with `R = 6371`. -/
noncomputable def haversineRaw (p1 p2 : GeoPoint) : ℝ :=
  let R : ℝ := 6371
  let dLat := (p2.lat - p1.lat) * π / 180
  let dLng := (p2.lng - p1.lng) * π / 180
  let a := Real.sin (dLat / 2) * Real.sin (dLat / 2) +
    Real.cos (p1.lat * π / 180) * Real.cos (p2.lat * π / 180) *
    Real.sin (dLng / 2) * Real.sin (dLng / 2)
  let c := 2 * atan2 (Real.sqrt a) (Real.sqrt (1 - a))
  R * c

/-- `calculateHaversineDistance` (CreateShipment.jsx lines 152-162):
`Math.round(R * c * 1.3)`, the 1.3 being the road-tortuosity factor. -/
noncomputable def calculateHaversineDistance (p1 p2 : GeoPoint) : ℝ :=
  ((round (haversineRaw p1 p2 * (13/10)) : ℤ) : ℝ)

/-- The `routeInfo` record set by `calculateRoute`. -/
structure RouteInfo where
  distance_km : ℝ
  duration_hours : ℝ
  has_eta : Bool

/-- Distance/duration payload returned by the primary ETA provider. -/
structure ETAData where
  distance_km : ℝ
  duration_hours : ℝ

/-- Outcome of the `routesApi.getETA` call: a response (whose
`distance_km` field may still be falsy) or a thrown error. -/
inductive ProviderResult where
  | ok (data : ETAData)
  | failure

/-- Notification kinds used by `addNotification` in CreateShipment.jsx. -/
inductive NotificationKind where
  | error | warning | success
  deriving DecidableEq, Repr

/-- The fallback route info built in both fallback branches of
`calculateRoute`: haversine distance and `distance / 50` hours. -/
noncomputable def fallbackRouteInfo (o d : GeoPoint) : RouteInfo :=
  { distance_km := calculateHaversineDistance o d
    duration_hours := calculateHaversineDistance o d / 50
    has_eta := false }

/-- `calculateRoute` (CreateShipment.jsx lines 124-149): use the provider
response when it carries a truthy `distance_km`; otherwise fall back to the
haversine estimate, and on a thrown provider error additionally emit a
`warning` notification.  It always produces a `RouteInfo`. -/
noncomputable def calculateRoute (resp : ProviderResult) (o d : GeoPoint) :
    RouteInfo × Option NotificationKind :=
  match resp with
  | .ok data =>
      if data.distance_km ≠ 0 then
        ({ distance_km := data.distance_km
           duration_hours := data.duration_hours
           has_eta := true }, none)
      else (fallbackRouteInfo o d, none)
  | .failure => (fallbackRouteInfo o d, some .warning)

end ClientRoute

namespace Validation

/-- `VEHICLE_TYPES` from vehicles.js line 9. -/
def VEHICLE_TYPES : List String := ["lorry", "truck", "trailer", "mini_truck", "tempo"]

/-- Request body of POST /vehicles (the fields its validation inspects). -/
structure VehicleInput where
  plate_number : String
  vehicle_type : String
  max_capacity_kg : ℚ
  deriving DecidableEq, Repr

/-- A created vehicle record (the fields relevant to validation). -/
structure VehicleRecord where
  plate_number : String
  vehicle_type : String
  max_capacity_kg : ℚ
  current_load_kg : ℚ
  is_available : Bool
  deriving DecidableEq, Repr

/-- POST /vehicles validation (vehicles.js lines 138-148): presence check
(`!plate_number || !vehicle_type || !max_capacity_kg`, where an empty string
and the number 0 are falsy), vehicle-type membership, then
`max_capacity_kg <= 0`. -/
def createVehicle (v : VehicleInput) : Except String VehicleRecord :=
  if v.plate_number = "" ∨ v.vehicle_type = "" ∨ v.max_capacity_kg = 0 then
    .error "Plate number, vehicle type, and max capacity are required"
  else if v.vehicle_type ∉ VEHICLE_TYPES then
    .error "Invalid vehicle type"
  else if v.max_capacity_kg ≤ 0 then
    .error "Max capacity must be greater than 0"
  else
    .ok ⟨v.plate_number, v.vehicle_type, v.max_capacity_kg, 0, true⟩

/-- Request body of POST /shipments (the fields its validation inspects). -/
structure ShipmentInput where
  cargo_type : String
  weight_kg : ℚ
  origin_address : String
  origin_lat : ℚ
  origin_lng : ℚ
  dest_address : String
  dest_lat : ℚ
  dest_lng : ℚ
  deriving DecidableEq, Repr

/-- A created shipment record (the fields relevant to validation). -/
structure ShipmentRecord where
  cargo_type : String
  weight_kg : ℚ
  origin_lat : ℚ
  origin_lng : ℚ
  dest_lat : ℚ
  dest_lng : ℚ
  status : String
  deriving DecidableEq, Repr

/-- POST /shipments validation (routes.js lines 742-773): a presence check
on every field (empty strings and the number 0 are falsy — no range check on
latitude or longitude), then `weight_kg <= 0`; any input passing those checks
is inserted as a record with status `posted`. -/
def createShipment (s : ShipmentInput) : Except String ShipmentRecord :=
  if s.cargo_type = "" ∨ s.weight_kg = 0 ∨ s.origin_address = "" ∨
      s.origin_lat = 0 ∨ s.origin_lng = 0 ∨ s.dest_address = "" ∨
      s.dest_lat = 0 ∨ s.dest_lng = 0 then
    .error "Required fields missing"
  else if s.weight_kg ≤ 0 then
    .error "Weight must be greater than 0"
  else
    .ok ⟨s.cargo_type, s.weight_kg, s.origin_lat, s.origin_lng,
      s.dest_lat, s.dest_lng, "posted"⟩

end Validation

namespace Legs

/-- `LEG_STATUSES` lifecycle values from routeLegs.js line 10. -/
inductive LegStatus where
  | pending | assigned | active | completed
  deriving DecidableEq, Repr

/-- One entry of the `legs` array sent to POST /route-legs. -/
structure LegInput where
  vehicle_id : Option String
  transporter_id : Option String
  start_location_name : String
  end_location_name : String
  agreed_price : Option ℚ
  deriving DecidableEq, Repr

/-- A stored route-leg record (the fields the endpoints manipulate). -/
structure RouteLeg where
  shipment_id : String
  vehicle_id : Option String
  transporter_id : Option String
  leg_sequence_index : ℕ
  is_last_leg : Bool
  start_location_name : String
  end_location_name : String
  agreed_price : Option ℚ
  status : LegStatus
  deriving DecidableEq, Repr

/-- The `legData` object built for index `i` of an `n`-element legs array
(routeLegs.js lines 163-175): 1-based `leg_sequence_index`,
`is_last_leg = (i === legs.length - 1)`, status `assigned` when a
transporter is supplied and `pending` otherwise. -/
def mkLegData (sid : String) (n i : ℕ) (leg : LegInput) : RouteLeg :=
  { shipment_id := sid
    vehicle_id := leg.vehicle_id
    transporter_id := leg.transporter_id
    leg_sequence_index := i + 1
    is_last_leg := i = n - 1
    start_location_name := leg.start_location_name
    end_location_name := leg.end_location_name
    agreed_price := leg.agreed_price
    status := if leg.transporter_id.isSome then .assigned else .pending }

/-- The creation loop of POST /route-legs (`for (let i = 0; ...)`),
started at index `i`. -/
def buildLegs (sid : String) (n : ℕ) : ℕ → List LegInput → List RouteLeg
  | _, [] => []
  | i, leg :: rest => mkLegData sid n i leg :: buildLegs sid n (i + 1) rest

/-- POST /route-legs (routeLegs.js lines 151-204): rejects an empty legs
array, otherwise creates one record per input leg in the given order. -/
def createRouteLegs (sid : String) (legs : List LegInput) :
    Except String (List RouteLeg) :=
  if legs.isEmpty then
    .error "Shipment ID and legs array are required"
  else
    .ok (buildLegs sid legs.length 0 legs)

/-- Shipment statuses touched by the leg lifecycle endpoints. -/
inductive ShipmentStatus where
  | posted | processing | assigned | in_transit | delivered
  deriving DecidableEq, Repr

/-- The state the lifecycle endpoints act on: one route leg together with
its owning shipment's status. -/
structure LegWorld where
  leg : RouteLeg
  shipment : ShipmentStatus
  deriving DecidableEq, Repr

/-- POST /route-legs/:id/accept (routeLegs.js lines 207-294): fails while
`transporter_id` is non-null, otherwise assigns the transporter and vehicle,
records the proposed price and moves the leg to `assigned`; when every leg
of the shipment is then non-pending (here: the single leg) the shipment
becomes `assigned`. -/
def acceptLeg (uid vid : String) (price : Option ℚ) (w : LegWorld) :
    Except String LegWorld :=
  match w.leg.transporter_id with
  | some _ => .error "Route leg already assigned to another transporter"
  | none =>
      .ok { leg := { w.leg with
              transporter_id := some uid
              vehicle_id := some vid
              agreed_price := price
              status := .assigned }
            shipment := .assigned }

/-- POST /route-legs/:id/start (routeLegs.js lines 296-338): succeeds only
for the leg's own transporter and only from status `assigned`; moves the
leg to `active` and the shipment to `in_transit`. -/
def startLeg (uid : String) (w : LegWorld) : Except String LegWorld :=
  if w.leg.transporter_id = some uid ∧ w.leg.status = .assigned then
    .ok { leg := { w.leg with status := .active }
          shipment := .in_transit }
  else
    .error "Route leg not found or not assigned to you"

/-- POST /route-legs/:id/complete (routeLegs.js lines 340-382): succeeds
only for the leg's own transporter and only from status `active`; moves the
leg to `completed` and marks the shipment `delivered` exactly when the leg
has `is_last_leg`. -/
def completeLeg (uid : String) (w : LegWorld) : Except String LegWorld :=
  if w.leg.transporter_id = some uid ∧ w.leg.status = .active then
    .ok { leg := { w.leg with status := .completed }
          shipment := if w.leg.is_last_leg then .delivered else w.shipment }
  else
    .error "Route leg not found or not active"

end Legs

namespace Optimizer

/-- Modelled from the spec: a point handled by the chain/VRP optimizer.
The optimizer service behind POST /api/optimize/chain is not part of the
available source (only its client calls are), so this section follows
spec sections 4.2-4.3. -/
structure Pt where
  lat : ℚ
  lng : ℚ
  deriving DecidableEq, Repr

/-- Modelled from the spec: a required stop with a demand and its insertion
index (the deterministic secondary key for tie-breaks). -/
structure SpecStop where
  idx : ℕ
  pos : Pt
  demand : ℚ
  deriving DecidableEq, Repr

/-- Modelled from the spec: one leg of a produced route, carrying the
distance travelled and the cost the cost model assigns to that edge. -/
structure SpecLeg where
  fromPos : Pt
  toPos : Pt
  dist_km : ℚ
  cost : ℚ
  deriving DecidableEq, Repr

/-- Modelled from the spec: a produced route with its aggregate total cost
and the stops the greedy fallback could not place. -/
structure SpecRoute where
  legs : List SpecLeg
  total_cost : ℚ
  unassigned : List SpecStop
  deriving DecidableEq, Repr

/-- Modelled from the spec (section 4.3, tier 2): select the nearest stop
from the current position; ties on distance keep the earliest inserted stop
(first-seen wins, `List.argmin` returns the first minimizer), so the result
is deterministic. -/
def selectNearest (dist : Pt → Pt → ℚ) (pos : Pt) (l : List SpecStop) :
    Option SpecStop :=
  l.argmin (fun s => dist pos s.pos)

/-- Modelled from the spec (section 4.3, tier 2): the greedy fallback loop.
From the current position, pick the nearest remaining stop whose demand fits
the remaining capacity; when none fits, finish with a leg to the destination
and report the remaining stops as unplaced.  Each leg's cost is distance
times the vehicle rate; the route total is accumulated as legs are built. -/
def greedyGo (dist : Pt → Pt → ℚ) (rate : ℚ) (dst : Pt) :
    Pt → (remaining : List SpecStop) → ℚ → ℚ →
      List SpecLeg × ℚ × List SpecStop
  | pos, remaining, cap, acc =>
      match h : selectNearest dist pos
          (remaining.filter (fun s => s.demand ≤ cap)) with
      | none =>
          ([⟨pos, dst, dist pos dst, dist pos dst * rate⟩],
            acc + dist pos dst * rate, remaining)
      | some s =>
          let leg : SpecLeg := ⟨pos, s.pos, dist pos s.pos, dist pos s.pos * rate⟩
          have hs : s ∈ remaining :=
            List.mem_of_mem_filter (List.argmin_mem h)
          have : (remaining.erase s).length < remaining.length := by
            rw [List.length_erase_of_mem hs]
            exact Nat.sub_lt (List.length_pos.mpr (List.ne_nil_of_mem hs)) one_pos
          let r := greedyGo dist rate dst s.pos (remaining.erase s)
            (cap - s.demand) (acc + leg.cost)
          (leg :: r.1, r.2.1, r.2.2)
  termination_by _ remaining _ _ => remaining.length

/-- Modelled from the spec (section 6): the optimize entry point for one
vehicle of capacity `cap` and per-km rate `rate`, producing a route from
origin to destination through the placeable stops. -/
def optimizeSpec (dist : Pt → Pt → ℚ) (rate cap : ℚ) (origin dst : Pt)
    (stops : List SpecStop) : SpecRoute :=
  let r := greedyGo dist rate dst origin stops cap 0
  ⟨r.1, r.2.1, r.2.2⟩

end Optimizer

namespace Samples

/-- A two-leg chain input for exercising POST /route-legs. -/
def legA : Legs.LegInput := ⟨none, none, "Chennai", "Vellore", none⟩

/-- Second leg of the sample chain. -/
def legB : Legs.LegInput := ⟨none, none, "Vellore", "Bengaluru", none⟩

/-- A freshly created single pending leg with its shipment. -/
def legWorld0 : Legs.LegWorld :=
  ⟨⟨"ship-1", none, none, 1, true, "Chennai", "Bengaluru", none, .pending⟩, .processing⟩

/-- A vehicle submission with capacity 0. -/
def vehicle0 : Validation.VehicleInput := ⟨"TN01AB1234", "lorry", 0⟩

/-- A shipment submission whose origin latitude 200 is outside −90..90. -/
def shipment200 : Validation.ShipmentInput :=
  ⟨"electronics", 500, "Chennai", 200, 80, "Bengaluru", 13, 77⟩

/-- Two stops at the same position (a distance tie) with insertion
indices 0 and 1. -/
def stopA : Optimizer.SpecStop := ⟨0, ⟨0, 0⟩, 1⟩

/-- The later-inserted twin of `stopA`. -/
def stopB : Optimizer.SpecStop := ⟨1, ⟨0, 0⟩, 1⟩

end Samples

/-! ## Shared helper lemmas -/

theorem atan2_zero_pos (x : ℝ) (hx : 0 < x) : ClientRoute.atan2 0 x = 0 := by
  unfold ClientRoute.atan2
  rw [if_pos hx, zero_div, Real.arctan_zero]

theorem buildLegs_length (sid : String) (n : ℕ) :
    ∀ (i : ℕ) (legs : List Legs.LegInput),
      (Legs.buildLegs sid n i legs).length = legs.length := by
  intro i legs
  induction legs generalizing i with
  | nil => rfl
  | cons a rest ih => simp [Legs.buildLegs, ih]

theorem buildLegs_get (sid : String) (n : ℕ) :
    ∀ (legs : List Legs.LegInput) (i j : ℕ) (h : j < legs.length)
      (h2 : j < (Legs.buildLegs sid n i legs).length),
      (Legs.buildLegs sid n i legs).get ⟨j, h2⟩ =
        Legs.mkLegData sid n (i + j) (legs.get ⟨j, h⟩) := by
  intro legs
  induction legs with
  | nil => intro i j h h2; exact absurd h (by simp)
  | cons a rest ih =>
      intro i j h h2
      cases j with
      | zero => simp [Legs.buildLegs]
      | succ j' =>
          have h' : j' < rest.length := Nat.lt_of_succ_lt_succ h
          have heq : i + 1 + j' = i + (j' + 1) := by omega
          simpa [Legs.buildLegs, heq] using
            ih (i + 1) j' h' (by rw [buildLegs_length]; exact h')

theorem greedyGo_total (dist : Optimizer.Pt → Optimizer.Pt → ℚ) (rate : ℚ)
    (dst : Optimizer.Pt) :
    ∀ (n : ℕ) (remaining : List Optimizer.SpecStop), remaining.length ≤ n →
      ∀ (pos : Optimizer.Pt) (cap acc : ℚ),
        (Optimizer.greedyGo dist rate dst pos remaining cap acc).2.1 =
          acc + ((Optimizer.greedyGo dist rate dst pos remaining cap acc).1.map
            Optimizer.SpecLeg.cost).sum := by
  intro n
  induction n with
  | zero =>
      intro remaining hlen pos cap acc
      have hnil : remaining = [] := List.length_eq_zero.mp (Nat.le_zero.mp hlen)
      subst hnil
      rw [Optimizer.greedyGo]
      simp [Optimizer.selectNearest]
  | succ n ih =>
      intro remaining hlen pos cap acc
      rw [Optimizer.greedyGo]
      split
      · simp
      · next s hsel =>
          have hs : s ∈ remaining :=
            List.mem_of_mem_filter (List.argmin_mem hsel)
          have hlt : (remaining.erase s).length ≤ n := by
            rw [List.length_erase_of_mem hs]
            omega
          have hrec := ih (remaining.erase s) hlt s.pos (cap - s.demand)
            (acc + dist pos s.pos * rate)
          simp only [List.map_cons, List.sum_cons]
          rw [hrec]
          ring

theorem one_le_cargoMultiplier (c : String) : 1 ≤ Pricing.cargoMultiplier c := by
  unfold Pricing.cargoMultiplier
  split_ifs <;> norm_num

theorem one_le_urgencyMultiplier (u : String) : 1 ≤ Pricing.urgencyMultiplier u := by
  unfold Pricing.urgencyMultiplier
  split_ifs <;> norm_num

theorem vehicleBaseRate_pos (v : Pricing.VehicleType) : 0 < Pricing.vehicleBaseRate v := by
  cases v <;> norm_num [Pricing.vehicleBaseRate]

/-! ## Claim theorems -/

/-- C1, counterexample: the shipping-price endpoint does not scale the whole
cost by the table standard=1.0, priority=1.5, express=2.0, emergency=3.0.
At distance 100, weight 1, open vehicle, general cargo, the `express` quote
is not 2.0 times the `standard` quote (the code uses express=1.3, applied
to the base cost only, and knows no `standard` label at all). -/
theorem C1_counterexample :
    Pricing.shippingSubtotal 100 1 .open_ "general" "express" true ≠
      2 * Pricing.shippingSubtotal 100 1 .open_ "general" "standard" true := by
  simp only [Pricing.shippingSubtotal, Pricing.baseCost, Pricing.vehicleBaseRate,
    Pricing.cargoMultiplier, Pricing.urgencyMultiplier]
  simp
  norm_num

/-- C1, amended: the urgency table of POST /pricing/shipping-price is
normal=1, express=1.3, overnight=1.5 (any other label falls back to 1), and
the urgency multiplier scales only the base cost component — the quote is
the `normal` quote plus `baseCost * (multiplier - 1)` — rather than scaling
the whole cost.  The claimed 1/1.5/2/3 table exists only as the numeric
options of the Optimizer page's urgency select. -/
theorem C1_urgency_table (d w : ℚ) (v : Pricing.VehicleType) (c u : String)
    (r : Bool) :
    Pricing.shippingSubtotal d w v c u r =
      Pricing.shippingSubtotal d w v c "normal" r +
        Pricing.baseCost d w * (Pricing.urgencyMultiplier u - 1) ∧
    Pricing.urgencyMultiplier "normal" = 1 ∧
    Pricing.urgencyMultiplier "express" = 13/10 ∧
    Pricing.urgencyMultiplier "overnight" = 3/2 ∧
    Pricing.optimizerUrgencyOptions.map Prod.snd = [1, 3/2, 2, 3] := by
  refine ⟨?_, by simp [Pricing.urgencyMultiplier], by simp [Pricing.urgencyMultiplier],
    by simp [Pricing.urgencyMultiplier], rfl⟩
  simp only [Pricing.shippingSubtotal, Pricing.urgencyMultiplier, if_pos rfl]
  cases r <;> (simp; try ring)

/-- C4, counterexample: a shipping-price request with distance exactly zero
is rejected with the missing-fields error (JavaScript `!distance_km` treats
0 as absent), rather than returning zero variable cost plus fixed cost. -/
theorem C4_counterexample :
    Pricing.shippingPrice 0 1 .open_ "general" "normal" true =
      .error "Distance, vehicle type, and weight are required" := by
  simp [Pricing.shippingPrice]

/-- C4, amended: for positive distance and positive weight the endpoint
returns a quote whose subtotal and recommended price are non-negative; a
request with distance exactly zero is rejected with a 400 missing-fields
error instead of being priced. -/
theorem C4_cost_nonneg (d w : ℚ) (v : Pricing.VehicleType) (c u : String)
    (r : Bool) (hd : 0 < d) (hw : 0 < w) :
    (∃ q, Pricing.shippingPrice d w v c u r = .ok q ∧
      0 ≤ q.subtotal ∧ 0 ≤ q.recommended) ∧
    Pricing.shippingPrice 0 w v c u r =
      .error "Distance, vehicle type, and weight are required" := by
  constructor
  · have hbase : 0 ≤ Pricing.baseCost d w := by
      unfold Pricing.baseCost; positivity
    have hveh : 0 ≤ Pricing.vehicleBaseRate v * d :=
      mul_nonneg (vehicleBaseRate_pos v).le hd.le
    have hcargo : 0 ≤ Pricing.baseCost d w * (Pricing.cargoMultiplier c - 1) :=
      mul_nonneg hbase (by linarith [one_le_cargoMultiplier c])
    have hurg : 0 ≤ Pricing.baseCost d w * (Pricing.urgencyMultiplier u - 1) :=
      mul_nonneg hbase (by linarith [one_le_urgencyMultiplier u])
    have hret : (0:ℚ) ≤ (Pricing.baseCost d w + Pricing.vehicleBaseRate v * d) * (3/10) :=
      mul_nonneg (add_nonneg hbase hveh) (by norm_num)
    have hsub : 0 ≤ Pricing.shippingSubtotal d w v c u r := by
      simp only [Pricing.shippingSubtotal]
      cases r <;> norm_num <;> linarith
    refine ⟨⟨Pricing.shippingSubtotal d w v c u r,
        round ((Pricing.shippingSubtotal d w v c u r * (115/100) +
          Pricing.shippingSubtotal d w v c u r * (125/100)) / 2)⟩, ?_, hsub, ?_⟩
    · unfold Pricing.shippingPrice
      rw [if_neg (by push_neg; exact ⟨hd.ne', hw.ne'⟩)]
    · rw [round_eq, Int.le_floor]
      push_cast
      linarith
  · unfold Pricing.shippingPrice
    simp

/-- C4, witness: the amended C4 at distance 100 km and weight 1 ton. -/
theorem C4_cost_nonneg_witness :
    (∃ q, Pricing.shippingPrice 100 1 .open_ "general" "normal" true = .ok q ∧
      0 ≤ q.subtotal ∧ 0 ≤ q.recommended) ∧
    Pricing.shippingPrice 0 1 .open_ "general" "normal" true =
      .error "Distance, vehicle type, and weight are required" :=
  C4_cost_nonneg 100 1 .open_ "general" "normal" true (by norm_num) (by norm_num)

/-- C2: whenever the primary provider yields no usable distance, the client
fallback distance is the haversine great-circle distance times the
road-tortuosity factor 1.3 up to the rounding tolerance 1/2 km, and the
fallback duration is that distance divided by 50 km/h. -/
theorem C2_fallback_formula (p1 p2 : ClientRoute.GeoPoint) :
    |ClientRoute.calculateHaversineDistance p1 p2 -
        ClientRoute.haversineRaw p1 p2 * (13/10)| ≤ 1/2 ∧
    (ClientRoute.fallbackRouteInfo p1 p2).duration_hours =
      (ClientRoute.fallbackRouteInfo p1 p2).distance_km / 50 := by
  constructor
  · unfold ClientRoute.calculateHaversineDistance
    rw [abs_sub_comm]
    exact abs_sub_round (ClientRoute.haversineRaw p1 p2 * (13/10))
  · rfl

/-- C3: failure of the primary distance provider never blocks the route
computation — `calculateRoute` on the failure path still returns the
haversine-fallback route info, and the only notification it can ever emit
is a non-fatal `warning`, never an `error`. -/
theorem C3_provider_failure_nonfatal (resp : ClientRoute.ProviderResult)
    (o d : ClientRoute.GeoPoint) :
    ClientRoute.calculateRoute .failure o d =
      (ClientRoute.fallbackRouteInfo o d, some .warning) ∧
    ((ClientRoute.calculateRoute resp o d).2 = none ∨
      (ClientRoute.calculateRoute resp o d).2 = some .warning) := by
  refine ⟨rfl, ?_⟩
  cases resp with
  | ok data =>
      by_cases h : data.distance_km ≠ 0 <;> simp [ClientRoute.calculateRoute, h]
  | failure => simp [ClientRoute.calculateRoute]

/-- C9: identical coordinates produce zero fallback distance and zero
duration — the haversine evaluation is total there (no domain error). -/
theorem C9_identical_coordinates (p : ClientRoute.GeoPoint) :
    ClientRoute.calculateHaversineDistance p p = 0 ∧
    (ClientRoute.fallbackRouteInfo p p).duration_hours = 0 := by
  have hraw : ClientRoute.haversineRaw p p = 0 := by
    unfold ClientRoute.haversineRaw
    simp only [sub_self, zero_mul, zero_div, Real.sin_zero, mul_zero, add_zero,
      zero_add, Real.sqrt_zero, sub_zero, Real.sqrt_one]
    rw [atan2_zero_pos 1 one_pos]
    ring
  have hdist : ClientRoute.calculateHaversineDistance p p = 0 := by
    unfold ClientRoute.calculateHaversineDistance
    rw [hraw]
    norm_num
  refine ⟨hdist, ?_⟩
  show ClientRoute.calculateHaversineDistance p p / 50 = 0
  rw [hdist]
  norm_num

/-- C5, counterexample: POST /shipments accepts a shipment whose origin
latitude is 200, far outside the real-world range −90..90 — the validation
checks only that the coordinate fields are present (truthy), not their
ranges. -/
theorem C5_counterexample :
    Validation.createShipment Samples.shipment200 =
      .ok ⟨"electronics", 500, 200, 80, 13, 77, "posted"⟩ ∧
    ¬((Samples.shipment200.origin_lat : ℚ) ≤ 90) := by
  constructor
  · unfold Validation.createShipment Samples.shipment200
    rw [if_neg ?hg, if_neg (by norm_num)]
    case hg =>
      push_neg
      exact ⟨by simp, by norm_num, by simp, by norm_num, by norm_num,
        by simp, by norm_num, by norm_num⟩
  · norm_num [Samples.shipment200]

/-- C5, amended: a vehicle with zero or negative capacity is rejected with
an immediate error before any record is created; coordinates, however, are
only checked for presence (non-zero), not for the ranges −90..90 / −180..180,
so any shipment with non-empty fields, positive weight and non-zero
coordinates is accepted regardless of coordinate range. -/
theorem C5_capacity_checked_range_not (v : Validation.VehicleInput)
    (s : Validation.ShipmentInput)
    (hcap : v.max_capacity_kg ≤ 0)
    (h1 : s.cargo_type ≠ "") (h2 : 0 < s.weight_kg)
    (h3 : s.origin_address ≠ "") (h4 : s.origin_lat ≠ 0) (h5 : s.origin_lng ≠ 0)
    (h6 : s.dest_address ≠ "") (h7 : s.dest_lat ≠ 0) (h8 : s.dest_lng ≠ 0) :
    (∃ e, Validation.createVehicle v = .error e) ∧
    Validation.createShipment s =
      .ok ⟨s.cargo_type, s.weight_kg, s.origin_lat, s.origin_lng,
        s.dest_lat, s.dest_lng, "posted"⟩ := by
  constructor
  · unfold Validation.createVehicle
    by_cases hA : v.plate_number = "" ∨ v.vehicle_type = "" ∨ v.max_capacity_kg = 0
    · rw [if_pos hA]; exact ⟨_, rfl⟩
    · rw [if_neg hA]
      by_cases hB : v.vehicle_type ∉ Validation.VEHICLE_TYPES
      · rw [if_pos hB]; exact ⟨_, rfl⟩
      · rw [if_neg hB, if_pos hcap]; exact ⟨_, rfl⟩
  · unfold Validation.createShipment
    rw [if_neg (by push_neg; exact ⟨h1, h2.ne', h3, h4, h5, h6, h7, h8⟩),
      if_neg (not_le.mpr h2)]

/-- C5, witness: the amended C5 at a capacity-0 vehicle and the
latitude-200 shipment. -/
theorem C5_witness :
    (∃ e, Validation.createVehicle Samples.vehicle0 = .error e) ∧
    Validation.createShipment Samples.shipment200 =
      .ok ⟨"electronics", 500, 200, 80, 13, 77, "posted"⟩ :=
  C5_capacity_checked_range_not Samples.vehicle0 Samples.shipment200
    (by norm_num [Samples.vehicle0])
    (by simp [Samples.shipment200]) (by norm_num [Samples.shipment200])
    (by simp [Samples.shipment200]) (by norm_num [Samples.shipment200])
    (by norm_num [Samples.shipment200]) (by simp [Samples.shipment200])
    (by norm_num [Samples.shipment200]) (by norm_num [Samples.shipment200])

/-- C6: POST /route-legs on a non-empty legs array succeeds and emits the
legs in the given order: the j-th produced leg carries 1-based sequence
index j+1, its `is_last_leg` flag is true exactly for the final leg, and it
keeps the j-th input's start and end location names. -/
theorem C6_chain_assembly (sid : String) (legs : List Legs.LegInput)
    (hne : legs ≠ []) :
    Legs.createRouteLegs sid legs =
      .ok (Legs.buildLegs sid legs.length 0 legs) ∧
    (Legs.buildLegs sid legs.length 0 legs).length = legs.length ∧
    ∀ (j : ℕ) (h : j < legs.length)
      (h2 : j < (Legs.buildLegs sid legs.length 0 legs).length),
      ((Legs.buildLegs sid legs.length 0 legs).get ⟨j, h2⟩).leg_sequence_index
          = j + 1 ∧
      (((Legs.buildLegs sid legs.length 0 legs).get ⟨j, h2⟩).is_last_leg = true
          ↔ j = legs.length - 1) ∧
      ((Legs.buildLegs sid legs.length 0 legs).get ⟨j, h2⟩).start_location_name
          = (legs.get ⟨j, h⟩).start_location_name ∧
      ((Legs.buildLegs sid legs.length 0 legs).get ⟨j, h2⟩).end_location_name
          = (legs.get ⟨j, h⟩).end_location_name := by
  refine ⟨?_, buildLegs_length sid legs.length 0 legs, ?_⟩
  · unfold Legs.createRouteLegs
    rw [if_neg (by simpa using hne)]
  · intro j h h2
    rw [buildLegs_get sid legs.length legs 0 j h h2]
    refine ⟨by simp [Legs.mkLegData], ?_, by simp [Legs.mkLegData],
      by simp [Legs.mkLegData]⟩
    simp [Legs.mkLegData]

/-- C6, witness: the amended C6 on a concrete two-leg chain. -/
theorem C6_witness :
    Legs.createRouteLegs "ship-1" [Samples.legA, Samples.legB] =
      .ok (Legs.buildLegs "ship-1" 2 0 [Samples.legA, Samples.legB]) ∧
    (Legs.buildLegs "ship-1" 2 0 [Samples.legA, Samples.legB]).length = 2 ∧
    ∀ (j : ℕ) (h : j < ([Samples.legA, Samples.legB] : List Legs.LegInput).length)
      (h2 : j < (Legs.buildLegs "ship-1" 2 0 [Samples.legA, Samples.legB]).length),
      ((Legs.buildLegs "ship-1" 2 0 [Samples.legA, Samples.legB]).get
          ⟨j, h2⟩).leg_sequence_index = j + 1 ∧
      (((Legs.buildLegs "ship-1" 2 0 [Samples.legA, Samples.legB]).get
          ⟨j, h2⟩).is_last_leg = true ↔ j = 1) ∧
      ((Legs.buildLegs "ship-1" 2 0 [Samples.legA, Samples.legB]).get
          ⟨j, h2⟩).start_location_name =
        (([Samples.legA, Samples.legB] : List Legs.LegInput).get
          ⟨j, h⟩).start_location_name ∧
      ((Legs.buildLegs "ship-1" 2 0 [Samples.legA, Samples.legB]).get
          ⟨j, h2⟩).end_location_name =
        (([Samples.legA, Samples.legB] : List Legs.LegInput).get
          ⟨j, h⟩).end_location_name :=
  C6_chain_assembly "ship-1" [Samples.legA, Samples.legB] (by simp)

/-- C10: the route-leg lifecycle follows pending → assigned → active →
completed: accept succeeds exactly while the transporter reference is null
(a second accept is rejected with an error and produces no new state),
start succeeds only from `assigned`, complete succeeds only from `active`,
and the shipment is marked delivered exactly when the completed leg has
`is_last_leg`. -/
theorem C10_leg_state_machine (w : Legs.LegWorld) (uid vid : String)
    (p : Option ℚ) :
    (w.leg.transporter_id = none →
      Legs.acceptLeg uid vid p w = .ok
        ⟨{ w.leg with
            transporter_id := some uid, vehicle_id := some vid,
            agreed_price := p, status := .assigned }, .assigned⟩) ∧
    (w.leg.transporter_id ≠ none →
      Legs.acceptLeg uid vid p w =
        .error "Route leg already assigned to another transporter") ∧
    (∀ w', Legs.startLeg uid w = .ok w' →
      w.leg.status = .assigned ∧ w'.leg.status = .active) ∧
    (∀ w', Legs.completeLeg uid w = .ok w' →
      w.leg.status = .active ∧ w'.leg.status = .completed ∧
        w'.shipment = (if w.leg.is_last_leg then .delivered else w.shipment)) := by
  refine ⟨?_, ?_, ?_, ?_⟩
  · intro h
    unfold Legs.acceptLeg
    rw [h]
  · intro h
    unfold Legs.acceptLeg
    rcases htr : w.leg.transporter_id with _ | u0
    · exact absurd htr h
    · rfl
  · intro w' h
    unfold Legs.startLeg at h
    by_cases hc : w.leg.transporter_id = some uid ∧ w.leg.status = Legs.LegStatus.assigned
    · rw [if_pos hc] at h
      injection h with h'
      subst h'
      exact ⟨hc.2, rfl⟩
    · rw [if_neg hc] at h
      exact Except.noConfusion h
  · intro w' h
    unfold Legs.completeLeg at h
    by_cases hc : w.leg.transporter_id = some uid ∧ w.leg.status = Legs.LegStatus.active
    · rw [if_pos hc] at h
      injection h with h'
      subst h'
      exact ⟨hc.2, rfl, rfl⟩
    · rw [if_neg hc] at h
      exact Except.noConfusion h

/-- C10, witness: accepting a fresh pending leg succeeds and assigns it. -/
theorem C10_witness :
    Legs.acceptLeg "u1" "v1" none Samples.legWorld0 = .ok
      ⟨{ Samples.legWorld0.leg with
          transporter_id := some "u1", vehicle_id := some "v1",
          agreed_price := none, status := .assigned }, .assigned⟩ :=
  (C10_leg_state_machine Samples.legWorld0 "u1" "v1" none).1 rfl

/-- C7: for every input, the route produced by the (spec-modelled) greedy
optimizer reports a total cost equal to the sum of its legs' costs — the
total is accumulated leg by leg and drifts by nothing. -/
theorem C7_route_total_cost (dist : Optimizer.Pt → Optimizer.Pt → ℚ)
    (rate cap : ℚ) (origin dst : Optimizer.Pt)
    (stops : List Optimizer.SpecStop) :
    (Optimizer.optimizeSpec dist rate cap origin dst stops).total_cost =
      ((Optimizer.optimizeSpec dist rate cap origin dst stops).legs.map
        Optimizer.SpecLeg.cost).sum := by
  have h := greedyGo_total dist rate dst stops.length stops le_rfl origin cap 0
  simpa [Optimizer.optimizeSpec] using h

/-- C8: the (spec-modelled) optimizer is deterministic — the same inputs
give the same result — and its nearest-stop selection breaks distance ties
by insertion order: the selected stop is in the candidate list, is at
minimal distance, and no earlier-listed stop matches its distance (its
index is least among all candidates at equal-or-smaller distance). -/
theorem C8_deterministic_tiebreak (dist : Optimizer.Pt → Optimizer.Pt → ℚ)
    (rate cap : ℚ) (origin dst pos : Optimizer.Pt)
    (stops l : List Optimizer.SpecStop) (r : Optimizer.SpecStop)
    (hsel : Optimizer.selectNearest dist pos l = some r) :
    Optimizer.optimizeSpec dist rate cap origin dst stops =
      Optimizer.optimizeSpec dist rate cap origin dst stops ∧
    r ∈ l ∧
    (∀ t ∈ l, dist pos r.pos ≤ dist pos t.pos) ∧
    ∀ t ∈ l, dist pos t.pos = dist pos r.pos →
      l.indexOf r ≤ l.indexOf t := by
  have hm : r ∈ List.argmin (fun s => dist pos s.pos) l := hsel
  refine ⟨rfl, List.argmin_mem hm, fun t ht => ?_, fun t ht heq =>
    List.index_of_argmin hm ht (le_of_eq heq)⟩
  have hle := List.le_of_mem_argmin ht hm
  exact hle

/-- C8, witness: with a constant distance function two co-located stops tie,
and the selection returns the first-inserted one. -/
theorem C8_witness :
    Optimizer.optimizeSpec (fun _ _ => 0) 1 10 ⟨0, 0⟩ ⟨1, 1⟩ [] =
      Optimizer.optimizeSpec (fun _ _ => 0) 1 10 ⟨0, 0⟩ ⟨1, 1⟩ [] ∧
    Samples.stopA ∈ [Samples.stopA, Samples.stopB] ∧
    (∀ t ∈ [Samples.stopA, Samples.stopB],
      (fun (_ _ : Optimizer.Pt) => (0:ℚ)) ⟨1, 1⟩ Samples.stopA.pos ≤
        (fun (_ _ : Optimizer.Pt) => (0:ℚ)) ⟨1, 1⟩ t.pos) ∧
    ∀ t ∈ [Samples.stopA, Samples.stopB],
      (fun (_ _ : Optimizer.Pt) => (0:ℚ)) ⟨1, 1⟩ t.pos =
        (fun (_ _ : Optimizer.Pt) => (0:ℚ)) ⟨1, 1⟩ Samples.stopA.pos →
      ([Samples.stopA, Samples.stopB] : List Optimizer.SpecStop).indexOf
          Samples.stopA ≤
        ([Samples.stopA, Samples.stopB] : List Optimizer.SpecStop).indexOf t :=
  C8_deterministic_tiebreak (fun _ _ => 0) 1 10 ⟨0, 0⟩ ⟨1, 1⟩ ⟨1, 1⟩ []
    [Samples.stopA, Samples.stopB] Samples.stopA rfl
